import Mathlib

/-!
Shallow embedding of the watclub-app scraping pipeline
(`src/scraping/models/organization.py`, `src/scraping/scrapers/{base,wusa,
design,sports,faculty}.py`, `src/scraping/db/sync.py`) and proofs about it.

JSON-like values are modelled by `Val`; Python datetimes are modelled by the
string they serialize to (`json.dump(..., default=str)` stringifies them and
the round-trip re-parses that string).  The external HTTP / LLM collaborators
are modelled by the outcome the code observes at its `try/except` boundaries.
-/

set_option autoImplicit false

/-- JSON-like values as produced by `json.loads` / consumed by `json.dump`. -/
inductive Val where
  | vNull
  | vStr (s : String)
  | vBool (b : Bool)
  | vNat (n : Nat)
  | vList (xs : List Val)
  | vDict (kvs : List (String × Val))
deriving Repr

/-- Key lookup in a JSON object (first occurrence wins, as in Python dicts
produced by `json.loads`). -/
def getV : List (String × Val) → String → Option Val
  | [], _ => none
  | (k, v) :: rest, key => if k = key then some v else getV rest key

/-- The `OrgType` enum of `models/organization.py`: the seven admissible
`org_type` values. -/
inductive OrgType where
  | wusa
  | faculty
  | design_team
  | athletics
  | advocacy
  | entrepreneurship
  | media
deriving Repr, DecidableEq

/-- The string value of each `OrgType` member (`use_enum_values` stores the
string on the model). -/
def OrgType.str : OrgType → String
  | .wusa => "wusa"
  | .faculty => "faculty"
  | .design_team => "design_team"
  | .athletics => "athletics"
  | .advocacy => "advocacy"
  | .entrepreneurship => "entrepreneurship"
  | .media => "media"

/-- Pydantic validation of a string against the `OrgType` enum: `some` member
whose value matches, else `none` (a `ValidationError`). -/
def OrgType.ofString (s : String) : Option OrgType :=
  if s = "wusa" then some .wusa
  else if s = "faculty" then some .faculty
  else if s = "design_team" then some .design_team
  else if s = "athletics" then some .athletics
  else if s = "advocacy" then some .advocacy
  else if s = "entrepreneurship" then some .entrepreneurship
  else if s = "media" then some .media
  else none

/-- The `Organization` pydantic model of `models/organization.py`.
`social_media : Dict[str, list[str]]` is modelled as an association list;
`scraped_at : datetime` is modelled by its serialized string. -/
structure Organization where
  name : String
  org_type : OrgType
  description : Option String
  social_media : List (String × List String)
  faculty : Option String
  category : Option String
  tags : List String
  meeting_info : Option String
  membership_info : Option String
  is_active : Bool
  last_active : String
  source_url : String
  scraped_at : String
deriving Repr, DecidableEq

/-- One `key: value` entry when the optional field is set, nothing when it is
`None` (`dict(exclude_none=True)` drops `None`-valued keys). -/
def optEntry (k : String) : Option String → List (String × Val)
  | none => []
  | some s => [(k, Val.vStr s)]

/-- `Organization.to_dict`: `self.dict(exclude_none=True)` in pydantic field
declaration order, with `use_enum_values` making `org_type` a plain string. -/
def Organization.to_dict (o : Organization) : List (String × Val) :=
  [("name", Val.vStr o.name), ("org_type", Val.vStr o.org_type.str)]
  ++ optEntry "description" o.description
  ++ [("social_media",
        Val.vDict (o.social_media.map (fun kv => (kv.1, Val.vList (kv.2.map Val.vStr)))))]
  ++ optEntry "faculty" o.faculty
  ++ optEntry "category" o.category
  ++ [("tags", Val.vList (o.tags.map Val.vStr))]
  ++ optEntry "meeting_info" o.meeting_info
  ++ optEntry "membership_info" o.membership_info
  ++ [("is_active", Val.vBool o.is_active), ("last_active", Val.vStr o.last_active),
      ("source_url", Val.vStr o.source_url), ("scraped_at", Val.vStr o.scraped_at)]

/-- Pydantic parse of a required `str` field. -/
def parseStr : Option Val → Except String String
  | some (.vStr s) => .ok s
  | _ => .error "field required / str type expected"

/-- Pydantic parse of an `Optional[str]` field (missing key defaults to
`None`). -/
def parseOptStr : Option Val → Except String (Option String)
  | none => .ok none
  | some .vNull => .ok none
  | some (.vStr s) => .ok (some s)
  | _ => .error "str type expected"

/-- Pydantic parse of a `bool` field with a default. -/
def parseBoolD (d : Bool) : Option Val → Except String Bool
  | none => .ok d
  | some (.vBool b) => .ok b
  | _ => .error "bool type expected"

/-- Pydantic parse of a `list[str]` value. -/
def parseStrList (v : Val) : Except String (List String) :=
  match v with
  | .vList xs => xs.mapM (fun x => match x with
      | Val.vStr s => Except.ok s
      | _ => Except.error "str type expected")
  | _ => .error "list type expected"

/-- Pydantic parse of the `Dict[str, list[str]]` `social_media` field
(missing key defaults to `{}`). -/
def parseSM : Option Val → Except String (List (String × List String))
  | none => .ok []
  | some (.vDict kvs) => kvs.mapM (fun kv => (parseStrList kv.2).map (fun l => (kv.1, l)))
  | _ => .error "dict type expected"

/-- Pydantic parse of the `List[str]` `tags` field (missing key defaults to
`[]`). -/
def parseTags : Option Val → Except String (List String)
  | none => .ok []
  | some v => parseStrList v

/-- Reconstruction of an `Organization` from its plain-object form: pydantic
validation of each known field by key, unknown keys ignored. -/
def Organization.from_dict (d : List (String × Val)) : Except String Organization := do
  let name ← parseStr (getV d "name")
  let otStr ← parseStr (getV d "org_type")
  let org_type ← match OrgType.ofString otStr with
    | some t => Except.ok t
    | none => Except.error "org_type: not a valid enumeration member"
  let description ← parseOptStr (getV d "description")
  let social_media ← parseSM (getV d "social_media")
  let faculty ← parseOptStr (getV d "faculty")
  let category ← parseOptStr (getV d "category")
  let tags ← parseTags (getV d "tags")
  let meeting_info ← parseOptStr (getV d "meeting_info")
  let membership_info ← parseOptStr (getV d "membership_info")
  let is_active ← parseBoolD true (getV d "is_active")
  let last_active ← parseStr (getV d "last_active")
  let source_url ← parseStr (getV d "source_url")
  let scraped_at ← parseStr (getV d "scraped_at")
  Except.ok { name, org_type, description, social_media, faculty, category, tags,
              meeting_info, membership_info, is_active, last_active, source_url, scraped_at }

/-- Characters matched by the regex class `[a-z0-9]` in `generate_slug`
(`sports.py`): the codepoint ranges 97-122 (`a`-`z`) and 48-57 (`0`-`9`). -/
def isSlugChar (c : Char) : Bool :=
  (97 ≤ c.toNat && c.toNat ≤ 122) || (48 ≤ c.toNat && c.toNat ≤ 57)

/-- `re.sub(r'[^a-z0-9]+', '-', s)` over the character list: every maximal run
of characters outside `[a-z0-9]` becomes a single hyphen. -/
def collapseRuns : List Char → List Char
  | [] => []
  | [c] => if isSlugChar c then [c] else ['-']
  | c :: d :: cs =>
    if isSlugChar c then c :: collapseRuns (d :: cs)
    else if isSlugChar d then '-' :: collapseRuns (d :: cs)
    else collapseRuns (d :: cs)

/-- Python `str.strip('-')`: drop every trailing and then every leading
hyphen. -/
def stripHyphens (l : List Char) : List Char :=
  List.dropWhile (fun c => c = '-')
    ((List.dropWhile (fun c => c = '-') l.reverse).reverse)

/-- `generate_slug` from `sports.py`: lowercase the name, collapse runs of
non-`[a-z0-9]` characters to single hyphens, strip boundary hyphens. -/
def generate_slug (name : String) : String :=
  String.mk (stripHyphens (collapseRuns (name.data.map Char.toLower)))

/-- Result of one scheduled coroutine as observed by `asyncio.gather(...,
return_exceptions=True)`: the returned value, or the exception it raised. -/
inductive TaskResult (α : Type) where
  | ok (a : α)
  | exn (e : String)
deriving Repr

/-- `WUSAScraper.process_clubs_concurrent` result collection: gather with
`return_exceptions=True`, then keep exactly the results that are
`Organization` instances (`None` returns and exceptions are dropped). -/
def WUSAScraper.process_clubs_concurrent
    (results : List (TaskResult (Option Organization))) : List Organization :=
  results.filterMap (fun r => match r with
    | .ok (some org) => some org
    | _ => none)

/-- The `for i, result in enumerate(results)` error-logging loop of
`DesignScraper.process_teams_concurrent`: one `(index, message)` entry per
exception result. -/
def logExns (i : Nat) : List (TaskResult (Option Organization)) -> List (Nat × String)
  | [] => []
  | r :: rest => match r with
      | .exn e => (i, e) :: logExns (i + 1) rest
      | _ => logExns (i + 1) rest

/-- `DesignScraper.process_teams_concurrent`: keep the `Organization`
results, and log one error per exception result with the item's index. -/
def DesignScraper.process_teams_concurrent
    (results : List (TaskResult (Option Organization))) :
    List Organization × List (Nat × String) :=
  (results.filterMap (fun r => match r with
      | .ok (some org) => some org
      | _ => none),
   logExns 0 results)

/-- `SportsScraper.process_clubs_concurrent`: iterate `zip(results,
club_info)`, keep `Organization` results, log exceptions with the club's
name and url. -/
def SportsScraper.process_clubs_concurrent (clubInfo : List (String × String))
    (results : List (TaskResult Organization)) : List Organization × List String :=
  ((results.zip clubInfo).filterMap (fun rc => match rc.1 with
      | .ok o => some o
      | .exn _ => none),
   (results.zip clubInfo).filterMap (fun rc => match rc.1 with
      | .exn e => some ("Error processing " ++ rc.2.1 ++ " at " ++ rc.2.2 ++ ": " ++ e)
      | .ok _ => none))

/-- Outcome of the chat-completion call plus JSON decoding, as observed at
the `try/except` boundaries of the `process_with_llm` methods: the API call
raised, the response content was empty, `json.loads` raised, or a decoded
JSON value was produced. -/
inductive LLMAttempt where
  | apiError (msg : String)
  | emptyResponse
  | parseError (msg : String)
  | parsed (v : Val)
deriving Repr

/-- The literal fallback dict of `WUSAScraper.process_with_llm`'s `except`
branches. -/
def WUSAScraper.fallback (description : String) (contacts : List String) :
    List (String × Val) :=
  [("cleaned_description", Val.vStr description),
   ("social_media", Val.vDict []),
   ("email", Val.vList []),
   ("other_contacts", Val.vList (contacts.map Val.vStr))]

/-- `WUSAScraper.process_with_llm`: the decoded JSON on success; on an empty
response (raised `ValueError`), a JSON decode error, or any other exception,
the deterministic fallback dict. -/
def WUSAScraper.process_with_llm (description : String) (contacts : List String) :
    LLMAttempt → Val
  | .parsed v => v
  | .apiError _ => Val.vDict (WUSAScraper.fallback description contacts)
  | .emptyResponse => Val.vDict (WUSAScraper.fallback description contacts)
  | .parseError _ => Val.vDict (WUSAScraper.fallback description contacts)

/-- The literal fallback dict of `DesignScraper.process_with_llm`'s `except`
branches: description truncated to 500 characters. -/
def DesignScraper.fallback (section_text : String) : List (String × Val) :=
  [("name", Val.vStr "Unknown Team"),
   ("description", Val.vStr (section_text.take 500)),
   ("social_media", Val.vDict [])]

/-- `DesignScraper.process_with_llm`: decoded JSON on success, deterministic
fallback on any failure. -/
def DesignScraper.process_with_llm (section_text : String) : LLMAttempt → Val
  | .parsed v => v
  | .apiError _ => Val.vDict (DesignScraper.fallback section_text)
  | .emptyResponse => Val.vDict (DesignScraper.fallback section_text)
  | .parseError _ => Val.vDict (DesignScraper.fallback section_text)

/-- Python truthiness of a JSON value. -/
def isFalsy : Val → Bool
  | .vNull => true
  | .vStr s => s = ""
  | .vBool b => !b
  | .vNat n => n = 0
  | .vList xs => xs.isEmpty
  | .vDict kvs => kvs.isEmpty

/-- The `membership_info` kwarg of the WUSA `Organization(...)` call:
`"; ".join(other_contacts) if other_contacts else None`.  Joining a truthy
non-list value is modelled as a raised `TypeError`. -/
def parseJoinContacts : Option Val → Except String (Option String)
  | none => .ok none
  | some (.vList []) => .ok none
  | some (.vList xs) =>
      (xs.mapM (fun x => match x with
        | Val.vStr s => Except.ok s
        | _ => Except.error "TypeError: sequence item is not str")).map
        (fun ss => some (String.intercalate "; " ss))
  | some v => if isFalsy v then .ok none else .error "TypeError: join on non-list"

/-- The parsed WUSA club page as `scrape_single_club` reads it: whether the
`container mt-4` div exists, the text of the `club-name-header` h5 if
present, the text of the `last-active-button` if present, the collected
contact strings, and the `full-text` element's text if present. -/
structure ClubPage where
  containerPresent : Bool
  nameHeader : Option String
  activeButton : Option String
  contacts : List String
  fullText : Option String
deriving Repr

/-- The `Organization(...)` call at the end of `WUSAScraper.scrape_single_club`:
pydantic validation of the supplied kwargs.  `org_type` is the string
`"wusa"`; `description` is `llm_result.get("cleaned_description", "")`;
`social_media` is `llm_result.get("social_media", {})`; `membership_info`
joins `other_contacts`.  The `email=` and `website=` kwargs are extra keys
with no model field and are ignored by pydantic. -/
def WUSAScraper.constructOrganization (club_name last_active club_url now : String)
    (llm : Val) : Except String Organization :=
  match llm with
  | .vDict kvs => do
      let t ← match OrgType.ofString "wusa" with
        | some t => Except.ok t
        | none => Except.error "org_type: not a valid enumeration member"
      let description ← parseOptStr (some ((getV kvs "cleaned_description").getD (Val.vStr "")))
      let social_media ← parseSM (getV kvs "social_media")
      let membership_info ← parseJoinContacts (getV kvs "other_contacts")
      Except.ok { name := club_name, org_type := t, description, social_media,
                  faculty := none, category := none, tags := [], meeting_info := none,
                  membership_info, is_active := true, last_active,
                  source_url := club_url, scraped_at := now }
  | _ => .error "AttributeError: .get on a non-dict"

/-- `WUSAScraper.scrape_single_club`: the whole body is wrapped in
`try/except` returning `None`, so the task never raises.  Missing container
or missing name header return `None`; a missing last-active button defaults
to `"Unknown"`. -/
def WUSAScraper.scrape_single_club (base_url club_path now : String)
    (fetch : Except String ClubPage) (attempt : LLMAttempt) : Option Organization :=
  match fetch with
  | .error _ => none
  | .ok page =>
      if page.containerPresent = false then none
      else match page.nameHeader with
        | none => none
        | some club_name =>
            let last_active := page.activeButton.getD "Unknown"
            let llm := WUSAScraper.process_with_llm (page.fullText.getD "")
              page.contacts attempt
            match WUSAScraper.constructOrganization club_name last_active
                (base_url ++ club_path) now llm with
            | .ok o => some o
            | .error _ => none

/-- `SportsScraper.process_with_llm`: no `try/except` — API errors and JSON
decode errors propagate to the caller.  On success it builds the
`Organization` with `org_type="sports"` (validated against the enum, in
pydantic field order) and the extra `slug=` kwarg ignored. -/
def SportsScraper.process_with_llm (club_name club_url now : String) :
    LLMAttempt → Except String Organization
  | .apiError m => .error m
  | .emptyResponse => .error "json.loads: expecting value"
  | .parseError m => .error m
  | .parsed v =>
      match v with
      | .vDict kvs => do
          let t ← match OrgType.ofString "sports" with
            | some t => Except.ok t
            | none => Except.error "org_type: not a valid enumeration member"
          let description ← parseOptStr (getV kvs "description")
          let social_media ← parseSM (getV kvs "social_media")
          let meeting_info ← parseOptStr (getV kvs "meeting_info")
          let membership_info ← parseOptStr (getV kvs "membership_info")
          Except.ok { name := club_name, org_type := t, description, social_media,
                      faculty := none, category := none, tags := [], meeting_info,
                      membership_info, is_active := true, last_active := "Fall 2025",
                      source_url := club_url, scraped_at := now }
      | _ => .error "AttributeError: .get on a non-dict"

/-- `SportsScraper.scrape_single_sport`: page fetch failures raise
(`try/finally` only closes the page); otherwise the result of
`process_with_llm`, whose exceptions also propagate to the gather. -/
def SportsScraper.scrape_single_sport (club_name club_url now : String)
    (fetch : Except String Unit) (attempt : LLMAttempt) : TaskResult Organization :=
  match fetch with
  | .error e => .exn e
  | .ok _ =>
      match SportsScraper.process_with_llm club_name club_url now attempt with
      | .ok o => .ok o
      | .error e => .exn e

/-- The JSON snapshot object written by `BaseScraper.save_data`. -/
structure SavedFile where
  scraper : String
  scraped_at : String
  count : Nat
  data : List (List (String × Val))
deriving Repr

/-- The local data directory, keyed by scraper name (the file
`data/{name}/{name}_data.json`). -/
abbrev FileStore : Type := String → Option SavedFile

/-- Opening `data/{name}/{name}_data.json` with mode `w` and dumping. -/
def FileStore.write (fs : FileStore) (name : String) (f : SavedFile) : FileStore :=
  fun k => if k = name then some f else fs k

/-- `BaseScraper.save_data`: the snapshot object with `scraper`,
`scraped_at`, `count = len(data)` and `data` the `to_dict` of each item. -/
def BaseScraper.save_data (name now : String) (data : List Organization) : SavedFile :=
  { scraper := name, scraped_at := now, count := data.length,
    data := data.map Organization.to_dict }

/-- `BaseScraper.run`: `scrape` then `save_data`; any exception yields `[]`
with nothing saved.  The third component counts `save_data` calls. -/
def BaseScraper.run (name now : String) (fs : FileStore)
    (scrapeResult : Except String (List Organization)) :
    List Organization × FileStore × Nat :=
  match scrapeResult with
  | .ok data => (data, fs.write name (BaseScraper.save_data name now data), 1)
  | .error _ => ([], fs, 0)

/-- The remote `clubs` table: a list of plain-object rows. -/
abbrev ClubsTable : Type := List (List (String × Val))

/-- `club["org_type"] = org_type`: replace the key's value in place, or add
the key. -/
def setKey (row : List (String × Val)) (k : String) (v : Val) : List (String × Val) :=
  match getV row k with
  | some _ => row.map (fun kv => if kv.1 = k then (k, v) else kv)
  | none => row ++ [(k, v)]

/-- The `(name, org_type)` key of a row for the upsert's unique constraint
(rows written by this pipeline always hold strings there; non-string values
have no key and never conflict). -/
def rowKey (row : List (String × Val)) : Option String × Option String :=
  ((match getV row "name" with | some (.vStr s) => some s | _ => none),
   (match getV row "org_type" with | some (.vStr s) => some s | _ => none))

/-- One upserted row under the `(name, org_type)` unique constraint:
replace every matching row's fields, or insert when no row matches. -/
def upsertRow (db : ClubsTable) (row : List (String × Val)) : ClubsTable :=
  if db.any (fun r => rowKey r = rowKey row) then
    db.map (fun r => if rowKey r = rowKey row then row else r)
  else db ++ [row]

/-- `SupabaseSync.upsert_clubs`: attach `org_type` to each club and upsert
the batch. -/
def SupabaseSync.upsert_clubs (db : ClubsTable) (clubs : List (List (String × Val)))
    (org_type : String) : ClubsTable :=
  (clubs.map (fun c => setKey c "org_type" (Val.vStr org_type))).foldl upsertRow db

/-- `SupabaseSync.sync_type`: open `data/{t}/{t}_data.json` (raising
`FileNotFoundError` when absent) and upsert its `data` array. -/
def SupabaseSync.sync_type (fs : FileStore) (db : ClubsTable) (t : String) :
    Except String ClubsTable :=
  match fs t with
  | none => .error ("FileNotFoundError: data/" ++ t ++ "/" ++ t ++ "_data.json")
  | some file => .ok (SupabaseSync.upsert_clubs db file.data t)

/-- `SupabaseSync.sync_all`: `asyncio.gather` over one `sync_type` task per
requested type, without `return_exceptions`.  Each task body is fully
synchronous (the supabase `execute()` call is blocking and `upsert_clubs`
contains no suspension point), so every task runs to completion in creation
order even when an earlier task raises; the awaited gather then re-raises
the first exception.  Returns the final table and that gather outcome. -/
def syncStep (fs : FileStore) (acc : ClubsTable × Except String Unit) (t : String) :
    ClubsTable × Except String Unit :=
  match SupabaseSync.sync_type fs acc.1 t with
  | .ok db' => (db', acc.2)
  | .error e => (acc.1, match acc.2 with
      | .ok _ => .error e
      | .error e0 => .error e0)

def SupabaseSync.sync_all (fs : FileStore) (db : ClubsTable) (types : List String) :
    ClubsTable × Except String Unit :=
  types.foldl (syncStep fs) (db, .ok ())

/-- The directory of downloaded image files, keyed by public path; the
value is the content that was written. -/
abbrev ImgStore : Type := String → Option Nat

/-- Write one downloaded file. -/
def ImgStore.write (st : ImgStore) (path : String) (body : Nat) : ImgStore :=
  fun k => if k = path then some body else st k

/-- An HTTP response for an image GET: status, lowercased `content-type`
header, and body. -/
structure HttpResp where
  status : Nat
  contentType : String
  body : Nat
deriving Repr

/-- The shared safe-filename computation of the three image downloaders:
keep alphanumerics, hyphen, underscore and space; replace spaces by
hyphens; lowercase; strip boundary hyphens. -/
def safeNameOf (club_name : String) : String :=
  String.mk (stripHyphens
    (((club_name.data.filter
        (fun c => c.isAlphanum || c = '-' || c = '_' || c = ' ')).map
      (fun c => if c = ' ' then '-' else c)).map Char.toLower))

/-- The characters after the first `://` marker, if any. -/
def afterSchemeMarker : List Char → Option (List Char)
  | ':' :: '/' :: '/' :: rest => some rest
  | _ :: rest => afterSchemeMarker rest
  | [] => none

/-- `urlparse(url).path`: drop the scheme and network location, keep the
path up to any query or fragment. -/
def urlPath (url : String) : String :=
  let cs := match afterSchemeMarker url.data with
    | some rest => rest.dropWhile (fun c => c ≠ '/')
    | none => url.data
  String.mk ((cs.takeWhile (fun c => c ≠ '?')).takeWhile (fun c => c ≠ '#'))

/-- `os.path.splitext(p)[1]`: the suffix of the last path component from its
last dot, where leading dots of the component never start an extension. -/
def splitextExt (p : String) : String :=
  let base := (p.data.reverse.takeWhile (fun c => c ≠ '/')).reverse
  let rest := base.drop ((base.takeWhile (fun c => c = '.')).length)
  let revKeep := rest.reverse.takeWhile (fun c => c ≠ '.')
  if revKeep.length = rest.length then ""
  else String.mk ('.' :: revKeep.reverse)

/-- Extension selection of `DesignScraper.download_team_image`: URL-suffix
based with a `.jpg` default. -/
def designExt (img_src : String) : String :=
  let ext := splitextExt (urlPath img_src)
  if ext = "" || !(ext = ".jpg" || ext = ".jpeg" || ext = ".png" || ext = ".gif"
      || ext = ".webp" || ext = ".svg") then ".jpg" else ext

/-- Extension selection of `WUSAScraper.download_and_save_club_image`: like
the design scraper's but without `.svg` in the allowed list. -/
def wusaExt (image_url : String) : String :=
  let ext := splitextExt (urlPath image_url)
  if ext = "" || !(ext = ".jpg" || ext = ".jpeg" || ext = ".png" || ext = ".gif"
      || ext = ".webp") then ".jpg" else ext

/-- Extension selection of `FacultyScraper.download_club_image`: from the
lowercased `content-type` response header, defaulting to `.jpg`. -/
def facultyExt (contentType : String) : String :=
  if ("jpeg".data <:+: contentType.data) || ("jpg".data <:+: contentType.data) then ".jpg"
  else if "png".data <:+: contentType.data then ".png"
  else if "webp".data <:+: contentType.data then ".webp"
  else if "gif".data <:+: contentType.data then ".gif"
  else if "svg".data <:+: contentType.data then ".svg"
  else ".jpg"

/-- Relative-URL normalization in `DesignScraper.download_team_image`. -/
def designNormalizeSrc (src : String) : String :=
  if src.startsWith "/" then "https://uwaterloo.ca" ++ src
  else if !(src.startsWith "http") then "https://uwaterloo.ca/" ++ src
  else src

/-- `DesignScraper.download_team_image`: no image tag or src yields `None`;
otherwise the destination path is derived from the sanitized team name and
the URL suffix, and an existing destination is returned as-is with no GET
and no write.  Result: returned public path, resulting store, number of
GET requests issued. -/
def DesignScraper.download_team_image (st : ImgStore) (imgTag : Option (Option String))
    (team_name : String) (resp : HttpResp) : Option String × ImgStore × Nat :=
  match imgTag with
  | none => (none, st, 0)
  | some none => (none, st, 0)
  | some (some src0) =>
      let img_src := designNormalizeSrc src0
      let filename := safeNameOf team_name ++ designExt img_src
      let path := "/design/" ++ filename
      match st path with
      | some _ => (some path, st, 0)
      | none =>
          if resp.status = 200 then (some path, st.write path resp.body, 1)
          else (none, st, 1)

/-- `FacultyScraper.download_club_image`: the GET is issued first; the
extension comes from the response's `content-type`; an existing destination
file is then left unwritten. -/
def FacultyScraper.download_club_image (st : ImgStore) (club_name faculty_name : String)
    (resp : HttpResp) : Option String × ImgStore × Nat :=
  if resp.status ≠ 200 then (none, st, 1)
  else
    let filename := safeNameOf club_name ++ facultyExt resp.contentType
    let path := "/faculty/" ++ faculty_name ++ "/" ++ filename
    match st path with
    | some _ => (some path, st, 1)
    | none => (some path, st.write path resp.body, 1)

/-- `WUSAScraper.download_and_save_club_image`: no existence check at all —
the GET is always issued and a 200 response is always written to the
destination path. -/
def WUSAScraper.download_and_save_club_image (st : ImgStore)
    (image_url club_name : String) (resp : HttpResp) : Option String × ImgStore × Nat :=
  let filename := safeNameOf club_name ++ wusaExt image_url
  let path := "/wusa/" ++ filename
  if resp.status = 200 then (some path, st.write path resp.body, 1)
  else (none, st, 1)

/-- Failure kinds of an LLM attempt: everything except a decoded value. -/
def LLMAttempt.failed : LLMAttempt → Bool
  | .parsed _ => false
  | _ => true

theorem OrgType.ofString_str (t : OrgType) : OrgType.ofString t.str = some t := by
  cases t <;> rfl

theorem parseStrList_roundtrip (l : List String) :
    parseStrList (Val.vList (l.map Val.vStr)) = Except.ok l := by
  induction l with
  | nil => rfl
  | cons x xs ih =>
      simp only [parseStrList, List.map_cons, List.mapM_cons] at ih ⊢
      rw [ih]
      rfl

theorem parseSM_roundtrip (sm : List (String × List String)) :
    parseSM (some (Val.vDict (sm.map (fun kv => (kv.1, Val.vList (kv.2.map Val.vStr)))))) =
      Except.ok sm := by
  induction sm with
  | nil => rfl
  | cons kv rest ih =>
      simp only [parseSM, List.map_cons, List.mapM_cons] at ih ⊢
      rw [parseStrList_roundtrip, ih]
      rfl

theorem parseTags_roundtrip (l : List String) :
    parseTags (some (Val.vList (l.map Val.vStr))) = Except.ok l := by
  simp only [parseTags]
  exact parseStrList_roundtrip l

theorem parseOptStr_map (os : Option String) :
    parseOptStr (os.map Val.vStr) = Except.ok os := by
  cases os <;> rfl

theorem exBind_ok {α β : Type} (x : α) (f : α → Except String β) :
    (Except.ok x >>= f) = f x := rfl

theorem parseStr_some (s : String) : parseStr (some (Val.vStr s)) = Except.ok s := rfl

theorem parseBoolD_some (d b : Bool) :
    parseBoolD d (some (Val.vBool b)) = Except.ok b := rfl

theorem getV_td_name (o : Organization) :
    getV o.to_dict "name" = some (Val.vStr o.name) := by
  obtain ⟨n, ot, de, sm, fa, ca, tg, mi, mb, ia, la, su, sa⟩ := o
  rfl

theorem getV_td_org_type (o : Organization) :
    getV o.to_dict "org_type" = some (Val.vStr o.org_type.str) := by
  obtain ⟨n, ot, de, sm, fa, ca, tg, mi, mb, ia, la, su, sa⟩ := o
  rfl

theorem getV_td_description (o : Organization) :
    getV o.to_dict "description" = o.description.map Val.vStr := by
  obtain ⟨n, ot, de, sm, fa, ca, tg, mi, mb, ia, la, su, sa⟩ := o
  rcases de with _ | d <;> rcases fa with _ | f <;> rcases ca with _ | c <;>
    rcases mi with _ | m <;> rcases mb with _ | m' <;> rfl

theorem getV_td_social_media (o : Organization) :
    getV o.to_dict "social_media" =
      some (Val.vDict (o.social_media.map (fun kv => (kv.1, Val.vList (kv.2.map Val.vStr))))) := by
  obtain ⟨n, ot, de, sm, fa, ca, tg, mi, mb, ia, la, su, sa⟩ := o
  rcases de with _ | d <;> rcases fa with _ | f <;> rcases ca with _ | c <;>
    rcases mi with _ | m <;> rcases mb with _ | m' <;> rfl

theorem getV_td_faculty (o : Organization) :
    getV o.to_dict "faculty" = o.faculty.map Val.vStr := by
  obtain ⟨n, ot, de, sm, fa, ca, tg, mi, mb, ia, la, su, sa⟩ := o
  rcases de with _ | d <;> rcases fa with _ | f <;> rcases ca with _ | c <;>
    rcases mi with _ | m <;> rcases mb with _ | m' <;> rfl

theorem getV_td_category (o : Organization) :
    getV o.to_dict "category" = o.category.map Val.vStr := by
  obtain ⟨n, ot, de, sm, fa, ca, tg, mi, mb, ia, la, su, sa⟩ := o
  rcases de with _ | d <;> rcases fa with _ | f <;> rcases ca with _ | c <;>
    rcases mi with _ | m <;> rcases mb with _ | m' <;> rfl

theorem getV_td_tags (o : Organization) :
    getV o.to_dict "tags" = some (Val.vList (o.tags.map Val.vStr)) := by
  obtain ⟨n, ot, de, sm, fa, ca, tg, mi, mb, ia, la, su, sa⟩ := o
  rcases de with _ | d <;> rcases fa with _ | f <;> rcases ca with _ | c <;>
    rcases mi with _ | m <;> rcases mb with _ | m' <;> rfl

theorem getV_td_meeting_info (o : Organization) :
    getV o.to_dict "meeting_info" = o.meeting_info.map Val.vStr := by
  obtain ⟨n, ot, de, sm, fa, ca, tg, mi, mb, ia, la, su, sa⟩ := o
  rcases de with _ | d <;> rcases fa with _ | f <;> rcases ca with _ | c <;>
    rcases mi with _ | m <;> rcases mb with _ | m' <;> rfl

theorem getV_td_membership_info (o : Organization) :
    getV o.to_dict "membership_info" = o.membership_info.map Val.vStr := by
  obtain ⟨n, ot, de, sm, fa, ca, tg, mi, mb, ia, la, su, sa⟩ := o
  rcases de with _ | d <;> rcases fa with _ | f <;> rcases ca with _ | c <;>
    rcases mi with _ | m <;> rcases mb with _ | m' <;> rfl

theorem getV_td_is_active (o : Organization) :
    getV o.to_dict "is_active" = some (Val.vBool o.is_active) := by
  obtain ⟨n, ot, de, sm, fa, ca, tg, mi, mb, ia, la, su, sa⟩ := o
  rcases de with _ | d <;> rcases fa with _ | f <;> rcases ca with _ | c <;>
    rcases mi with _ | m <;> rcases mb with _ | m' <;> rfl

theorem getV_td_last_active (o : Organization) :
    getV o.to_dict "last_active" = some (Val.vStr o.last_active) := by
  obtain ⟨n, ot, de, sm, fa, ca, tg, mi, mb, ia, la, su, sa⟩ := o
  rcases de with _ | d <;> rcases fa with _ | f <;> rcases ca with _ | c <;>
    rcases mi with _ | m <;> rcases mb with _ | m' <;> rfl

theorem getV_td_source_url (o : Organization) :
    getV o.to_dict "source_url" = some (Val.vStr o.source_url) := by
  obtain ⟨n, ot, de, sm, fa, ca, tg, mi, mb, ia, la, su, sa⟩ := o
  rcases de with _ | d <;> rcases fa with _ | f <;> rcases ca with _ | c <;>
    rcases mi with _ | m <;> rcases mb with _ | m' <;> rfl

theorem getV_td_scraped_at (o : Organization) :
    getV o.to_dict "scraped_at" = some (Val.vStr o.scraped_at) := by
  obtain ⟨n, ot, de, sm, fa, ca, tg, mi, mb, ia, la, su, sa⟩ := o
  rcases de with _ | d <;> rcases fa with _ | f <;> rcases ca with _ | c <;>
    rcases mi with _ | m <;> rcases mb with _ | m' <;> rfl

theorem from_dict_to_dict (o : Organization) :
    Organization.from_dict o.to_dict = Except.ok o := by
  simp only [Organization.from_dict, getV_td_name, getV_td_org_type, getV_td_description,
    getV_td_social_media, getV_td_faculty, getV_td_category, getV_td_tags,
    getV_td_meeting_info, getV_td_membership_info, getV_td_is_active, getV_td_last_active,
    getV_td_source_url, getV_td_scraped_at, parseSM_roundtrip, parseTags_roundtrip,
    parseOptStr_map, OrgType.ofString_str, exBind_ok, parseStr_some, parseBoolD_some]

theorem isSlugChar_hyphen : isSlugChar '-' = false := by decide

theorem toLower_slug (c : Char) (h : isSlugChar c = true) : c.toLower = c := by
  simp only [isSlugChar, Bool.or_eq_true, Bool.and_eq_true, decide_eq_true_eq] at h
  simp only [Char.toLower]
  rw [if_neg]
  omega

theorem mem_collapseRuns {l : List Char} {c : Char} (h : c ∈ collapseRuns l) :
    isSlugChar c = true ∨ c = '-' := by
  induction l using collapseRuns.induct with
  | case1 => simp [collapseRuns] at h
  | case2 d hd =>
      rw [collapseRuns, if_pos hd] at h
      rcases List.mem_singleton.mp h with rfl
      exact Or.inl hd
  | case3 d hd =>
      rw [collapseRuns, if_neg hd] at h
      rcases List.mem_singleton.mp h with rfl
      exact Or.inr rfl
  | case4 a d cs ha ih =>
      rw [collapseRuns, if_pos ha] at h
      rcases List.mem_cons.mp h with rfl | h'
      · exact Or.inl ha
      · exact ih h'
  | case5 a d cs ha hd ih =>
      rw [collapseRuns, if_neg ha, if_pos hd] at h
      rcases List.mem_cons.mp h with rfl | h'
      · exact Or.inr rfl
      · exact ih h'
  | case6 a d cs ha hd ih =>
      rw [collapseRuns, if_neg ha, if_neg hd] at h
      exact ih h

theorem head?_collapseRuns_slug (c : Char) (cs : List Char) (h : isSlugChar c = true) :
    (collapseRuns (c :: cs)).head? = some c := by
  cases cs <;> simp [collapseRuns, h]

theorem chain'_collapseRuns (l : List Char) :
    List.Chain' (fun a b : Char => a ≠ '-' ∨ b ≠ '-') (collapseRuns l) := by
  induction l using collapseRuns.induct with
  | case1 => simp [collapseRuns]
  | case2 d hd => rw [collapseRuns, if_pos hd]; simp
  | case3 d hd => rw [collapseRuns, if_neg hd]; simp
  | case4 a d cs ha ih =>
      rw [collapseRuns, if_pos ha]
      refine List.chain'_cons'.mpr ⟨?_, ih⟩
      intro y _
      left
      intro hEq
      rw [hEq] at ha
      simp [isSlugChar_hyphen] at ha
  | case5 a d cs ha hd ih =>
      rw [collapseRuns, if_neg ha, if_pos hd]
      refine List.chain'_cons'.mpr ⟨?_, ih⟩
      intro y hy
      rw [head?_collapseRuns_slug d cs hd] at hy
      right
      cases hy
      intro hEq
      rw [hEq] at hd
      simp [isSlugChar_hyphen] at hd
  | case6 a d cs ha hd ih =>
      rw [collapseRuns, if_neg ha, if_neg hd]
      exact ih

theorem collapseRuns_fix (l : List Char)
    (hmem : ∀ c ∈ l, isSlugChar c = true ∨ c = '-')
    (hch : List.Chain' (fun a b : Char => a ≠ '-' ∨ b ≠ '-') l) :
    collapseRuns l = l := by
  induction l using collapseRuns.induct with
  | case1 => rfl
  | case2 d hd => rw [collapseRuns, if_pos hd]
  | case3 d hd =>
      rcases hmem d (by simp) with hd' | hd'
      · exact absurd hd' hd
      · rw [collapseRuns, if_neg hd, hd']
  | case4 a d cs ha ih =>
      rw [collapseRuns, if_pos ha]
      rw [ih (fun c hc => hmem c (List.mem_cons_of_mem a hc)) (List.chain'_cons'.mp hch).2]
  | case5 a d cs ha hd ih =>
      rcases hmem a (by simp) with ha' | ha'
      · exact absurd ha' ha
      · rw [collapseRuns, if_neg ha, if_pos hd, ha']
        rw [ih (fun c hc => hmem c (List.mem_cons_of_mem a hc)) (List.chain'_cons'.mp hch).2]
  | case6 a d cs ha hd ih =>
      rcases hmem a (by simp) with ha' | ha'
      · exact absurd ha' ha
      · rcases hmem d (by simp) with hd' | hd'
        · exact absurd hd' hd
        · rcases (List.chain'_cons'.mp hch).1 d (by simp) with h | h
          · exact absurd ha' h
          · exact absurd hd' h

theorem mem_stripHyphens {l : List Char} {c : Char} (h : c ∈ stripHyphens l) : c ∈ l := by
  unfold stripHyphens at h
  have h1 : c ∈ (List.dropWhile (fun c => decide (c = '-')) l.reverse).reverse :=
    (List.dropWhile_sublist _).mem h
  rw [List.mem_reverse] at h1
  have h2 : c ∈ l.reverse := (List.dropWhile_sublist _).mem h1
  rwa [List.mem_reverse] at h2

theorem chain'_dropWhile {α : Type} {R : α → α → Prop} {p : α → Bool} {l : List α}
    (h : List.Chain' R l) : List.Chain' R (List.dropWhile p l) := by
  obtain ⟨t, ht⟩ := List.dropWhile_suffix p (l := l)
  rw [← ht] at h
  exact (List.chain'_append.mp h).2.1

theorem nadj_reverse {l : List Char}
    (h : List.Chain' (fun a b : Char => a ≠ '-' ∨ b ≠ '-') l) :
    List.Chain' (fun a b : Char => a ≠ '-' ∨ b ≠ '-') l.reverse := by
  rw [List.chain'_reverse]
  exact h.imp (fun a b hab => hab.symm)

theorem nadj_stripHyphens {l : List Char}
    (h : List.Chain' (fun a b : Char => a ≠ '-' ∨ b ≠ '-') l) :
    List.Chain' (fun a b : Char => a ≠ '-' ∨ b ≠ '-') (stripHyphens l) := by
  unfold stripHyphens
  exact chain'_dropWhile (nadj_reverse (chain'_dropWhile (nadj_reverse h)))

theorem head?_dropWhile_hyphen (l : List Char) (x : Char)
    (h : (List.dropWhile (fun c => decide (c = '-')) l).head? = some x) : x ≠ '-' := by
  have := List.head?_dropWhile_not (fun c => decide (c = '-')) l
  rw [h] at this
  simpa using this

theorem head?_stripHyphens (l : List Char) (x : Char)
    (h : (stripHyphens l).head? = some x) : x ≠ '-' :=
  head?_dropWhile_hyphen _ x h

theorem getLast?_stripHyphens (l : List Char) (x : Char)
    (h : (stripHyphens l).getLast? = some x) : x ≠ '-' := by
  unfold stripHyphens at h
  set m := (List.dropWhile (fun c => decide (c = '-')) l.reverse).reverse with hm
  obtain ⟨t, ht⟩ := List.dropWhile_suffix (fun c => decide (c = '-')) (l := m)
  have hmlast : m.getLast? = some x := by
    rw [← ht, List.getLast?_append, h]
    rfl
  rw [hm, List.getLast?_reverse] at hmlast
  exact head?_dropWhile_hyphen _ x hmlast

theorem dropWhile_eq_self_of_head {α : Type} (p : α → Bool) (l : List α)
    (h : ∀ x, l.head? = some x → p x = false) : List.dropWhile p l = l := by
  cases l with
  | nil => rfl
  | cons a as => simp [List.dropWhile_cons, h a rfl]

theorem stripHyphens_fix (l : List Char)
    (hh : ∀ x, l.head? = some x → x ≠ '-')
    (hl : ∀ x, l.getLast? = some x → x ≠ '-') : stripHyphens l = l := by
  unfold stripHyphens
  have inner : List.dropWhile (fun c => decide (c = '-')) l.reverse = l.reverse := by
    apply dropWhile_eq_self_of_head
    intro x hx
    rw [List.head?_reverse] at hx
    simpa using hl x hx
  rw [inner, List.reverse_reverse]
  apply dropWhile_eq_self_of_head
  intro x hx
  simpa using hh x hx

theorem generate_slug_chars (s : String) :
    ∀ c ∈ (generate_slug s).data, isSlugChar c = true ∨ c = '-' :=
  fun _ hc => mem_collapseRuns (mem_stripHyphens hc)

theorem generate_slug_nadj (s : String) :
    List.Chain' (fun a b : Char => a ≠ '-' ∨ b ≠ '-') (generate_slug s).data :=
  nadj_stripHyphens (chain'_collapseRuns _)

theorem generate_slug_head (s : String) (x : Char)
    (h : (generate_slug s).data.head? = some x) : x ≠ '-' :=
  head?_stripHyphens _ x h

theorem generate_slug_last (s : String) (x : Char)
    (h : (generate_slug s).data.getLast? = some x) : x ≠ '-' :=
  getLast?_stripHyphens _ x h

theorem generate_slug_idem (s : String) :
    generate_slug (generate_slug s) = generate_slug s := by
  have hmap : (generate_slug s).data.map Char.toLower = (generate_slug s).data := by
    have : ∀ c ∈ (generate_slug s).data, Char.toLower c = c := by
      intro c hc
      rcases generate_slug_chars s c hc with h | h
      · exact toLower_slug c h
      · rw [h]; decide
    calc (generate_slug s).data.map Char.toLower
        = (generate_slug s).data.map id := List.map_congr_left this
      _ = (generate_slug s).data := List.map_id _
  have hcoll : collapseRuns (generate_slug s).data = (generate_slug s).data :=
    collapseRuns_fix _ (generate_slug_chars s) (generate_slug_nadj s)
  have hstrip : stripHyphens (generate_slug s).data = (generate_slug s).data :=
    stripHyphens_fix _ (generate_slug_head s) (generate_slug_last s)
  show String.mk (stripHyphens (collapseRuns ((generate_slug s).data.map Char.toLower)))
      = generate_slug s
  rw [hmap, hcoll, hstrip]

theorem logExns_append_ok (i : Nat) (pre : List Organization)
    (rest : List (TaskResult (Option Organization))) :
    logExns i (pre.map (fun o => TaskResult.ok (some o)) ++ rest)
      = logExns (i + pre.length) rest := by
  induction pre generalizing i with
  | nil => simp
  | cons o os ih =>
      simp only [List.map_cons, List.cons_append, logExns, List.length_cons, List.append_eq]
      rw [ih (i + 1)]
      have h : i + 1 + os.length = i + (os.length + 1) := by omega
      rw [h]

theorem logExns_ok_nil (i : Nat) (post : List Organization) :
    logExns i (post.map (fun o => TaskResult.ok (some o))) = [] := by
  induction post generalizing i with
  | nil => rfl
  | cons o os ih => simp only [List.map_cons, logExns]; exact ih (i + 1)

theorem filterMap_orgs_ok (l : List Organization) :
    (l.map (fun o => TaskResult.ok (some o))).filterMap
      (fun r => match r with
        | TaskResult.ok (some org) => some org
        | _ => none) = l := by
  induction l with
  | nil => rfl
  | cons o os ih => simp only [List.map_cons, List.filterMap_cons, ih]

/-- C1: in a batch where item `k = |pre|` raises and every other item
returns a Record, the concurrent batch step returns exactly the other
records in order: the exception is captured by the gather (and, in the
design scraper, logged exactly once with the failing item's index), the
sibling results are all present, and the failed item is absent from the
output. -/
theorem C1_batch_failure_isolation (pre post : List Organization) (e : String) :
    DesignScraper.process_teams_concurrent
        (pre.map (fun o => TaskResult.ok (some o)) ++ TaskResult.exn e ::
          post.map (fun o => TaskResult.ok (some o)))
      = (pre ++ post, [(pre.length, e)])
    ∧ WUSAScraper.process_clubs_concurrent
        (pre.map (fun o => TaskResult.ok (some o)) ++ TaskResult.exn e ::
          post.map (fun o => TaskResult.ok (some o)))
      = pre ++ post := by
  constructor
  · unfold DesignScraper.process_teams_concurrent
    rw [logExns_append_ok 0 pre]
    simp only [logExns, Nat.zero_add, logExns_ok_nil]
    rw [List.filterMap_append, filterMap_orgs_ok, List.filterMap_cons]
    simp only [filterMap_orgs_ok]
  · unfold WUSAScraper.process_clubs_concurrent
    rw [List.filterMap_append, filterMap_orgs_ok, List.filterMap_cons]
    simp only [filterMap_orgs_ok]

theorem mapM_from_dict_to_dict (rs : List Organization) :
    (rs.map Organization.to_dict).mapM Organization.from_dict = Except.ok rs := by
  induction rs with
  | nil => rfl
  | cons r rest ih =>
      simp only [List.map_cons, List.mapM_cons, from_dict_to_dict, ih]
      rfl

/-- C5: `save_data` produces the snapshot object whose `count` equals the
number of records and whose `data` holds each record's dict representation;
re-parsing every element of `data` reconstructs the saved records
field-for-field; and writing a second snapshot under the same source name
replaces the first (the store maps the name to the second file only). -/
theorem C5_save_data_roundtrip_and_overwrite (name now now' : String)
    (records records' : List Organization) (fs : FileStore) :
    (BaseScraper.save_data name now records).scraper = name
    ∧ (BaseScraper.save_data name now records).count = records.length
    ∧ (BaseScraper.save_data name now records).data = records.map Organization.to_dict
    ∧ (BaseScraper.save_data name now records).data.mapM Organization.from_dict
        = Except.ok records
    ∧ ((fs.write name (BaseScraper.save_data name now records)).write name
          (BaseScraper.save_data name now' records')) name
        = some (BaseScraper.save_data name now' records') := by
  refine ⟨rfl, rfl, rfl, mapM_from_dict_to_dict records, ?_⟩
  simp [FileStore.write]

/-- C3: `run` calls `save_data` at most once, and only with the fully
resolved scrape result; when `scrape` raises, `run` returns `[]`, performs
no save, and leaves the existing snapshot store untouched; when `scrape`
succeeds, exactly one snapshot is written. -/
theorem C3_run_saves_once_after_resolution (name now : String) (fs : FileStore)
    (res : Except String (List Organization)) :
    (BaseScraper.run name now fs res).2.2 ≤ 1
    ∧ (∀ e, res = Except.error e → BaseScraper.run name now fs res = ([], fs, 0))
    ∧ (∀ data, res = Except.ok data →
        BaseScraper.run name now fs res
          = (data, fs.write name (BaseScraper.save_data name now data), 1)) := by
  refine ⟨?_, ?_, ?_⟩
  · cases res <;> simp [BaseScraper.run]
  · rintro e rfl
    rfl
  · rintro data rfl
    rfl

theorem C3_witness :
    BaseScraper.run "wusa" "2025-01-01T00:00:00" (fun _ => none)
        (Except.error "SourceUnavailable")
      = ([], (fun _ => none : FileStore), 0) :=
  (C3_run_saves_once_after_resolution "wusa" "2025-01-01T00:00:00" (fun _ => none)
    (Except.error "SourceUnavailable")).2.1 "SourceUnavailable" rfl

theorem syncStep_fst_indep (fs : FileStore) (l : List String) :
    ∀ (d : ClubsTable) (x y : Except String Unit),
      (l.foldl (syncStep fs) (d, x)).1 = (l.foldl (syncStep fs) (d, y)).1 := by
  induction l with
  | nil => intro d x y; rfl
  | cons t ts ih =>
      intro d x y
      simp only [List.foldl_cons, syncStep]
      cases h : SupabaseSync.sync_type fs d t with
      | ok db' => exact ih db' x y
      | error e => exact ih d _ _

theorem syncStep_err_sticky (fs : FileStore) (l : List String) :
    ∀ (d : ClubsTable) (e : String),
      (l.foldl (syncStep fs) (d, Except.error e)).2 = Except.error e := by
  induction l with
  | nil => intro d e; rfl
  | cons t ts ih =>
      intro d e
      simp only [List.foldl_cons, syncStep]
      cases h : SupabaseSync.sync_type fs d t with
      | ok db' => exact ih db' e
      | error e' => exact ih d e

/-- C4: each requested type gets its own `sync_type` task, and a type whose
snapshot file is missing does not block the other types' upserts and rolls
nothing back: the resulting table is exactly the table produced by the same
run without the failing type, while the awaited gather reports the
failure. -/
theorem C4_sync_all_failure_isolated (fs : FileStore) (db : ClubsTable)
    (ts1 ts2 : List String) (bad : String) (hbad : fs bad = none) :
    (SupabaseSync.sync_all fs db (ts1 ++ bad :: ts2)).1
      = (SupabaseSync.sync_all fs db (ts1 ++ ts2)).1
    ∧ ∃ e, (SupabaseSync.sync_all fs db (ts1 ++ bad :: ts2)).2 = Except.error e := by
  have hbadstep : ∀ d : ClubsTable,
      SupabaseSync.sync_type fs d bad
        = Except.error ("FileNotFoundError: data/" ++ bad ++ "/" ++ bad ++ "_data.json") := by
    intro d
    simp [SupabaseSync.sync_type, hbad]
  have G1 : ∀ (l : List String) (d : ClubsTable) (x : Except String Unit),
      ((l ++ bad :: ts2).foldl (syncStep fs) (d, x)).1
        = ((l ++ ts2).foldl (syncStep fs) (d, x)).1 := by
    intro l
    induction l with
    | nil =>
        intro d x
        simp only [List.nil_append, List.foldl_cons, syncStep, hbadstep d]
        exact syncStep_fst_indep fs ts2 d _ x
    | cons t ts ih =>
        intro d x
        simp only [List.cons_append, List.foldl_cons]
        exact ih _ _
  have G2 : ∀ (l : List String) (d : ClubsTable) (x : Except String Unit),
      ∃ e, ((l ++ bad :: ts2).foldl (syncStep fs) (d, x)).2 = Except.error e := by
    intro l
    induction l with
    | nil =>
        intro d x
        simp only [List.nil_append, List.foldl_cons, syncStep, hbadstep d]
        cases x with
        | ok u => exact ⟨_, syncStep_err_sticky fs ts2 d _⟩
        | error e0 => exact ⟨e0, syncStep_err_sticky fs ts2 d e0⟩
    | cons t ts ih =>
        intro d x
        simp only [List.cons_append, List.foldl_cons]
        exact ih _ _
  exact ⟨G1 ts1 db (Except.ok ()), G2 ts1 db (Except.ok ())⟩

theorem C4_witness :
    (SupabaseSync.sync_all
        (fun t => if t = "wusa" then some (BaseScraper.save_data "wusa" "t0" []) else none)
        [] ["wusa", "design"]).1
      = (SupabaseSync.sync_all
          (fun t => if t = "wusa" then some (BaseScraper.save_data "wusa" "t0" []) else none)
          [] ["wusa"]).1
    ∧ ∃ e, (SupabaseSync.sync_all
          (fun t => if t = "wusa" then some (BaseScraper.save_data "wusa" "t0" []) else none)
          [] ["wusa", "design"]).2 = Except.error e :=
  C4_sync_all_failure_isolated
    (fun t => if t = "wusa" then some (BaseScraper.save_data "wusa" "t0" []) else none)
    [] ["wusa"] [] "design" rfl

theorem sports_process_with_llm_error (cn cu now : String) (a : LLMAttempt) :
    ∃ e, SportsScraper.process_with_llm cn cu now a = Except.error e := by
  cases a with
  | apiError m => exact ⟨m, rfl⟩
  | emptyResponse => exact ⟨_, rfl⟩
  | parseError m => exact ⟨m, rfl⟩
  | parsed v => cases v <;> exact ⟨_, rfl⟩

theorem sports_scrape_single_exn (cn cu now : String) (fetch : Except String Unit)
    (a : LLMAttempt) :
    ∃ e, SportsScraper.scrape_single_sport cn cu now fetch a = TaskResult.exn e := by
  cases fetch with
  | error e => exact ⟨e, rfl⟩
  | ok u =>
      obtain ⟨e, he⟩ := sports_process_with_llm_error cn cu now a
      refine ⟨e, ?_⟩
      simp [SportsScraper.scrape_single_sport, he]

/-- C7: the `OrgType` enum admits exactly the seven listed values, `"sports"`
is not one of them, so every sports `Organization(...)` construction fails
pydantic validation, every `scrape_single_sport` task ends in an exception,
and the sports concurrent batch produces zero Records. -/
theorem C7_sports_org_type_rejected :
    (∀ s : String, OrgType.ofString s ≠ none ↔
      (s = "wusa" ∨ s = "faculty" ∨ s = "design_team" ∨ s = "athletics"
        ∨ s = "advocacy" ∨ s = "entrepreneurship" ∨ s = "media"))
    ∧ OrgType.ofString "sports" = none
    ∧ (∀ (now : String)
        (items : List ((String × String) × Except String Unit × LLMAttempt)),
        (SportsScraper.process_clubs_concurrent (items.map Prod.fst)
          (items.map (fun it =>
            SportsScraper.scrape_single_sport it.1.1 it.1.2 now it.2.1 it.2.2))).1
          = []) := by
  refine ⟨?_, rfl, ?_⟩
  · intro s
    simp only [OrgType.ofString]
    split_ifs <;> simp_all
  · intro now items
    unfold SportsScraper.process_clubs_concurrent
    simp only [List.zip_map', List.filterMap_map]
    rw [List.filterMap_eq_nil_iff]
    intro it _
    obtain ⟨e, he⟩ := sports_scrape_single_exn it.1.1 it.1.2 now it.2.1 it.2.2
    simp [Function.comp, he]

/-- C2 (amended): the wusa and design enrichers absorb every transport,
empty-response and JSON-parse failure into their literal deterministic
fallbacks — wusa keeps the original description, an empty social-media
mapping, an empty email list and echoes the input contact list into
`other_contacts`; design truncates the text to its first 500 characters and
reports `name = "Unknown Team"` — and never raise.  The sports enricher has
no fallback: the same failures are returned as exceptions to the calling
extractor (where the concurrent gather captures them). -/
theorem C2_enricher_fallback_behavior (description text cn cu now : String)
    (contacts : List String) (a : LLMAttempt) (hf : a.failed = true) :
    WUSAScraper.process_with_llm description contacts a
      = Val.vDict (WUSAScraper.fallback description contacts)
    ∧ getV (WUSAScraper.fallback description contacts) "social_media"
        = some (Val.vDict [])
    ∧ getV (WUSAScraper.fallback description contacts) "cleaned_description"
        = some (Val.vStr description)
    ∧ getV (WUSAScraper.fallback description contacts) "other_contacts"
        = some (Val.vList (contacts.map Val.vStr))
    ∧ DesignScraper.process_with_llm text a = Val.vDict (DesignScraper.fallback text)
    ∧ getV (DesignScraper.fallback text) "social_media" = some (Val.vDict [])
    ∧ getV (DesignScraper.fallback text) "description" = some (Val.vStr (text.take 500))
    ∧ ∃ e, SportsScraper.process_with_llm cn cu now a = Except.error e := by
  cases a with
  | parsed v => simp [LLMAttempt.failed] at hf
  | apiError m => exact ⟨rfl, rfl, rfl, rfl, rfl, rfl, rfl, ⟨m, rfl⟩⟩
  | emptyResponse => exact ⟨rfl, rfl, rfl, rfl, rfl, rfl, rfl, ⟨_, rfl⟩⟩
  | parseError m => exact ⟨rfl, rfl, rfl, rfl, rfl, rfl, rfl, ⟨m, rfl⟩⟩

theorem C2_witness :
    WUSAScraper.process_with_llm "about us" ["a@b.ca"] (LLMAttempt.parseError "bad json")
      = Val.vDict (WUSAScraper.fallback "about us" ["a@b.ca"])
    ∧ ∃ e, SportsScraper.process_with_llm "Wrestling Club"
        "https://athletics.uwaterloo.ca/x" "t0" (LLMAttempt.parseError "bad json")
        = Except.error e :=
  ⟨(C2_enricher_fallback_behavior "about us" "some text" "Wrestling Club"
      "https://athletics.uwaterloo.ca/x" "t0" ["a@b.ca"]
      (LLMAttempt.parseError "bad json") rfl).1,
   (C2_enricher_fallback_behavior "about us" "some text" "Wrestling Club"
      "https://athletics.uwaterloo.ca/x" "t0" ["a@b.ca"]
      (LLMAttempt.parseError "bad json") rfl).2.2.2.2.2.2.2⟩

/-- C2 counterexample: the sports enricher propagates an LLM transport
failure as an exception to its caller instead of returning a fallback, so
the enricher contract "never propagates an exception to the calling
extractor" fails on `SportsScraper.process_with_llm`. -/
theorem C2_counterexample :
    SportsScraper.process_with_llm "Wrestling Club"
      "https://athletics.uwaterloo.ca/x" "t0" (LLMAttempt.apiError "APIConnectionError")
      = Except.error "APIConnectionError" := rfl

/-- C8: `generate_slug` is a pure deterministic function of its input (it is
a Lean function), idempotent, and every output consists only of lowercase
alphanumeric characters and hyphens, with no two adjacent hyphens and no
leading or trailing hyphen. -/
theorem C8_generate_slug_idempotent_shape (s : String) :
    generate_slug (generate_slug s) = generate_slug s
    ∧ (∀ c ∈ (generate_slug s).data, isSlugChar c = true ∨ c = '-')
    ∧ List.Chain' (fun a b : Char => a ≠ '-' ∨ b ≠ '-') (generate_slug s).data
    ∧ (∀ x, (generate_slug s).data.head? = some x → x ≠ '-')
    ∧ (∀ x, (generate_slug s).data.getLast? = some x → x ≠ '-') :=
  ⟨generate_slug_idem s, generate_slug_chars s, generate_slug_nadj s,
   generate_slug_head s, generate_slug_last s⟩

theorem C8_witness :
    generate_slug "  UW Wrestling  Club! " = "uw-wrestling-club"
    ∧ generate_slug (generate_slug "  UW Wrestling  Club! ")
        = generate_slug "  UW Wrestling  Club! "
    ∧ (isSlugChar 'u' = true ∨ 'u' = '-')
    ∧ 'u' ≠ '-'
    ∧ 'b' ≠ '-' :=
  ⟨by decide,
   (C8_generate_slug_idempotent_shape "  UW Wrestling  Club! ").1,
   (C8_generate_slug_idempotent_shape "  UW Wrestling  Club! ").2.1 'u' (by decide),
   (C8_generate_slug_idempotent_shape "  UW Wrestling  Club! ").2.2.2.1 'u' (by decide),
   (C8_generate_slug_idempotent_shape "  UW Wrestling  Club! ").2.2.2.2 'b' (by decide)⟩

theorem exBind_err {α β : Type} (e : String) (f : α → Except String β) :
    (Except.error e >>= f) = Except.error e := rfl

theorem string_append_ne_empty (a b : String) (h : a ≠ "") : a ++ b ≠ "" := by
  intro he
  apply h
  have hd := congrArg String.data he
  rw [String.data_append] at hd
  have ha : a.data = [] := (List.append_eq_nil.mp hd).1
  cases a with
  | mk ad => cases ha; rfl

theorem wusa_construct_fields {cn la cu now : String} {llm : Val} {o : Organization}
    (h : WUSAScraper.constructOrganization cn la cu now llm = Except.ok o) :
    o.name = cn ∧ o.org_type = OrgType.wusa ∧ o.last_active = la
      ∧ o.source_url = cu ∧ o.scraped_at = now := by
  have hw : OrgType.ofString "wusa" = some OrgType.wusa := rfl
  cases llm with
  | vDict kvs =>
      simp only [WUSAScraper.constructOrganization, hw] at h
      rcases hd : parseOptStr (some ((getV kvs "cleaned_description").getD (Val.vStr "")))
        with ed | d <;> rw [hd] at h <;>
        [skip;
         rcases hs : parseSM (getV kvs "social_media") with es | sm2 <;> rw [hs] at h] <;>
        [skip; skip;
         rcases hj : parseJoinContacts (getV kvs "other_contacts") with ej | mb2 <;>
           rw [hj] at h]
      · simp [exBind_ok, exBind_err] at h
      · simp [exBind_ok, exBind_err] at h
      · simp [exBind_ok, exBind_err] at h
      · simp only [exBind_ok, exBind_err] at h
        cases h
        exact ⟨rfl, rfl, rfl, rfl, rfl⟩
  | vNull => simp [WUSAScraper.constructOrganization] at h
  | vStr s => simp [WUSAScraper.constructOrganization] at h
  | vBool b => simp [WUSAScraper.constructOrganization] at h
  | vNat n => simp [WUSAScraper.constructOrganization] at h
  | vList xs => simp [WUSAScraper.constructOrganization] at h

/-- C6 (amended): `scrape_single_club` either returns `None` or returns a
Record with all four required fields present: `org_type` is always the
enum value `wusa`, `source_url` is always `base_url ++ club_path` (non-empty
since the base url is non-empty), `name` is exactly the page's club-name
header text, and `last_active` is the last-active button text, defaulting to
`"Unknown"`.  Presence is guaranteed, but non-emptiness of `name` and
`last_active` is not: a page whose header or button text is empty produces a
Record with that field empty (see the counterexample). -/
theorem C6_extract_required_fields (base_url club_path now : String)
    (fetch : Except String ClubPage) (attempt : LLMAttempt)
    (hbase : base_url ≠ "") :
    WUSAScraper.scrape_single_club base_url club_path now fetch attempt = none
    ∨ ∃ page org, fetch = Except.ok page
        ∧ WUSAScraper.scrape_single_club base_url club_path now fetch attempt = some org
        ∧ org.org_type = OrgType.wusa
        ∧ org.source_url = base_url ++ club_path
        ∧ org.source_url ≠ ""
        ∧ page.nameHeader = some org.name
        ∧ org.last_active = page.activeButton.getD "Unknown"
        ∧ org.scraped_at = now := by
  cases fetch with
  | error e => exact Or.inl rfl
  | ok page =>
      rcases hcp : page.containerPresent with _ | _
      · exact Or.inl (by simp [WUSAScraper.scrape_single_club, hcp])
      · rcases hnh : page.nameHeader with _ | cn
        · exact Or.inl (by simp [WUSAScraper.scrape_single_club, hcp, hnh])
        · rcases hco : WUSAScraper.constructOrganization cn (page.activeButton.getD "Unknown")
            (base_url ++ club_path) now
            (WUSAScraper.process_with_llm (page.fullText.getD "") page.contacts attempt)
            with e | o
          · exact Or.inl (by simp [WUSAScraper.scrape_single_club, hcp, hnh, hco])
          · refine Or.inr ⟨page, o, rfl, ?_, ?_⟩
            · simp [WUSAScraper.scrape_single_club, hcp, hnh, hco]
            · obtain ⟨h1, h2, h3, h4, h5⟩ := wusa_construct_fields hco
              exact ⟨h2, h4, h4 ▸ string_append_ne_empty base_url club_path hbase,
                h1 ▸ hnh, h3, h5⟩

theorem C6_witness :
    WUSAScraper.scrape_single_club "https://clubs.wusa.ca" "/clubs/7" "t0"
        (Except.error "ConnectionError") (LLMAttempt.parsed (Val.vDict [])) = none
    ∨ ∃ (page : ClubPage) (org : Organization),
        (Except.error "ConnectionError" : Except String ClubPage) = Except.ok page
        ∧ WUSAScraper.scrape_single_club "https://clubs.wusa.ca" "/clubs/7" "t0"
            (Except.error "ConnectionError") (LLMAttempt.parsed (Val.vDict [])) = some org
        ∧ org.org_type = OrgType.wusa
        ∧ org.source_url = "https://clubs.wusa.ca" ++ "/clubs/7"
        ∧ org.source_url ≠ ""
        ∧ page.nameHeader = some org.name
        ∧ org.last_active = page.activeButton.getD "Unknown"
        ∧ org.scraped_at = "t0" :=
  C6_extract_required_fields "https://clubs.wusa.ca" "/clubs/7" "t0"
    (Except.error "ConnectionError") (LLMAttempt.parsed (Val.vDict [])) (by decide)

/-- C6 counterexample: a club page whose `club-name-header` element exists
but carries empty text passes every guard in `scrape_single_club`, so a
Record with an **empty** `name` is returned — the claim that the extraction
never returns a Record with an empty required field fails on the code
(nothing validates non-emptiness; pydantic only checks presence). -/
theorem C6_counterexample :
    WUSAScraper.scrape_single_club "https://clubs.wusa.ca" "/clubs/42" "t0"
      (Except.ok { containerPresent := true, nameHeader := some "",
                   activeButton := some "Fall 2025", contacts := [],
                   fullText := some "hello" })
      (LLMAttempt.parsed (Val.vDict []))
      = some { name := "", org_type := OrgType.wusa, description := some "",
               social_media := [], faculty := none, category := none, tags := [],
               meeting_info := none, membership_info := none, is_active := true,
               last_active := "Fall 2025",
               source_url := "https://clubs.wusa.ca" ++ "/clubs/42",
               scraped_at := "t0" } := rfl

/-- C9 (amended): the `Organization` model defines no `slug` field, so no
Record carries one and no serialized dict contains a `"slug"` key; the
`slug=generate_slug(club_name)` kwarg that `SportsScraper.process_with_llm`
passes is an unknown extra key that pydantic ignores — and that construction
never yields a Record at all, since its `org_type="sports"` already fails
validation. -/
theorem C9_no_slug_on_records (o : Organization) :
    getV o.to_dict "slug" = none
    ∧ ∀ (cn cu now : String) (a : LLMAttempt),
        ∃ e, SportsScraper.process_with_llm cn cu now a = Except.error e := by
  constructor
  · obtain ⟨n, ot, de, sm, fa, ca, tg, mi, mb, ia, la, su, sa⟩ := o
    rcases de with _ | d <;> rcases fa with _ | f <;> rcases ca with _ | c <;>
      rcases mi with _ | m <;> rcases mb with _ | m' <;> rfl
  · intro cn cu now a
    exact sports_process_with_llm_error cn cu now a

/-- C9 counterexample: a concrete Record's serialized dictionary has no
`"slug"` key at all, refuting "every Record carries a slug string field
... and appears in its serialized dictionary representation". -/
theorem C9_counterexample :
    getV (Organization.to_dict
      { name := "Midnight Sun", org_type := OrgType.design_team,
        description := some "Solar car design team", social_media := [],
        faculty := none, category := none, tags := [], meeting_info := none,
        membership_info := none, is_active := true, last_active := "Current",
        source_url := "https://uwaterloo.ca/sedra-student-design-centre/directory-teams",
        scraped_at := "t0" }) "slug" = none := rfl

/-- C10 (amended): every downloader persists under the deterministic path
built from the sanitized record name, with the file type inferred from the
URL suffix (design, wusa) or the response's content-type header (faculty).
Only the design downloader is a no-op on an existing destination (no GET,
no write); the faculty downloader issues its GET before the existence check
but leaves an existing file unwritten; the wusa downloader performs no
existence check and always re-downloads and overwrites on a 200 response. -/
theorem C10_download_path_and_idempotence (st : ImgStore)
    (team club fac src url : String) (resp : HttpResp) :
    (∀ b, st ("/design/" ++ (safeNameOf team ++ designExt (designNormalizeSrc src)))
        = some b →
      DesignScraper.download_team_image st (some (some src)) team resp
        = (some ("/design/" ++ (safeNameOf team ++ designExt (designNormalizeSrc src))),
           st, 0))
    ∧ (∀ b, resp.status = 200 →
        st ("/faculty/" ++ fac ++ "/" ++ (safeNameOf club ++ facultyExt resp.contentType))
          = some b →
        FacultyScraper.download_club_image st club fac resp
          = (some ("/faculty/" ++ fac ++ "/"
              ++ (safeNameOf club ++ facultyExt resp.contentType)), st, 1))
    ∧ (resp.status = 200 →
        WUSAScraper.download_and_save_club_image st url club resp
          = (some ("/wusa/" ++ (safeNameOf club ++ wusaExt url)),
             st.write ("/wusa/" ++ (safeNameOf club ++ wusaExt url)) resp.body, 1)) := by
  refine ⟨?_, ?_, ?_⟩
  · intro b hb
    simp [DesignScraper.download_team_image, hb]
  · intro b h200 hb
    simp [FacultyScraper.download_club_image, h200, hb]
  · intro h200
    simp [WUSAScraper.download_and_save_club_image, h200]

theorem C10_witness :
    DesignScraper.download_team_image
        (fun p => if p = "/design/" ++ (safeNameOf "Midnight Sun"
            ++ designExt (designNormalizeSrc "https://uwaterloo.ca/ms/logo.png"))
          then some 7 else none)
        (some (some "https://uwaterloo.ca/ms/logo.png")) "Midnight Sun"
        { status := 200, contentType := "image/png", body := 9 }
      = (some ("/design/" ++ (safeNameOf "Midnight Sun"
          ++ designExt (designNormalizeSrc "https://uwaterloo.ca/ms/logo.png"))),
         (fun p => if p = "/design/" ++ (safeNameOf "Midnight Sun"
            ++ designExt (designNormalizeSrc "https://uwaterloo.ca/ms/logo.png"))
          then some 7 else none), 0) :=
  (C10_download_path_and_idempotence
    (fun p => if p = "/design/" ++ (safeNameOf "Midnight Sun"
        ++ designExt (designNormalizeSrc "https://uwaterloo.ca/ms/logo.png"))
      then some 7 else none)
    "Midnight Sun" "c" "f" "https://uwaterloo.ca/ms/logo.png" "u"
    { status := 200, contentType := "image/png", body := 9 }).1 7 (if_pos rfl)

/-- C10 counterexample: the wusa downloader re-downloads and overwrites an
already-existing destination file: with `/wusa/uw-wrestling.jpg` present
(content 1), the call issues one GET and leaves the file holding the new
content 2, refuting "when the destination file already exists the operation
is a no-op". -/
theorem C10_counterexample :
    (WUSAScraper.download_and_save_club_image
        (fun p => if p = "/wusa/uw-wrestling.jpg" then some 1 else none)
        "https://cdn.example/pic.jpg" "UW Wrestling"
        { status := 200, contentType := "image/jpeg", body := 2 }).2.1
        "/wusa/uw-wrestling.jpg" = some 2
    ∧ (WUSAScraper.download_and_save_club_image
        (fun p => if p = "/wusa/uw-wrestling.jpg" then some 1 else none)
        "https://cdn.example/pic.jpg" "UW Wrestling"
        { status := 200, contentType := "image/jpeg", body := 2 }).2.2 = 1 :=
  ⟨by decide, by decide⟩

theorem C7_witness :
    ((("sports" : String) = "wusa" ∨ ("sports" : String) = "faculty"
        ∨ ("sports" : String) = "design_team" ∨ ("sports" : String) = "athletics"
        ∨ ("sports" : String) = "advocacy" ∨ ("sports" : String) = "entrepreneurship"
        ∨ ("sports" : String) = "media") → False)
    ∧ (SportsScraper.process_clubs_concurrent
        ([((("Wrestling Club", "https://athletics.uwaterloo.ca/x"),
            ((Except.ok () : Except String Unit), LLMAttempt.parsed (Val.vDict []))))].map Prod.fst)
        ([((("Wrestling Club", "https://athletics.uwaterloo.ca/x"),
            ((Except.ok () : Except String Unit), LLMAttempt.parsed (Val.vDict []))))].map (fun it =>
          SportsScraper.scrape_single_sport it.1.1 it.1.2 "t0" it.2.1 it.2.2))).1
      = [] :=
  ⟨fun hmem => ((C7_sports_org_type_rejected.1 "sports").mpr hmem)
      C7_sports_org_type_rejected.2.1,
   C7_sports_org_type_rejected.2.2 "t0"
     [((("Wrestling Club", "https://athletics.uwaterloo.ca/x"),
        ((Except.ok () : Except String Unit), LLMAttempt.parsed (Val.vDict []))))]⟩
